/-
Verification of the CoinManagerV1 trading pipeline specification.

This file gives a shallow embedding, in Lean 4, of the parts of the
source that the specification's claims talk about:

* `src/data/features.py`   — FeatureCalculator (RVOL, ATR, hard filters)
* `src/data/candles.py`    — CandleProcessor.validate_candle_data
* `src/scanner/scanner.py` — CandidateScanner.filter_candidates / rank_candidates
* `src/signals/signal_manager.py` — conflict detection / resolution
* `src/risk/guard.py`      — RiskGuard state machine
* `src/order/executor.py`  — OrderExecutor.close_position

Python floats are modelled as rationals (`ℚ`), datetimes/dates as integers
(days resp. minutes); ISO-8601 date strings compare lexicographically, which
on well-formed dates coincides with the integer order used here.  Log/alert
side effects are dropped; reason and warning strings are modelled as inductive
tags.  Each definition is translated from the source function named in its
doc comment.
-/

import Mathlib

namespace CoinManager

/-- `np.mean` over a list of rationals: sum divided by length
(division by zero yields 0, which the call sites below only reach
where numpy would produce a non-finite value that the source maps
to its neutral fallback anyway). -/
def npMean (l : List ℚ) : ℚ := l.sum / l.length

/-- `FeatureCalculator.calculate_rvol` (src/data/features.py:78-117).
`volumes[-(window+1):-1]` is the slice that drops the last element and
keeps the `window` elements before it.  The source's final
`not np.isfinite(rvol)` guard cannot fire over `ℚ`; the `rvol < 0`
guard is kept. -/
def calculate_rvol (volumes : List ℚ) (window : ℕ) : ℚ :=
  if volumes.length < window + 1 then 1
  else
    let recent := volumes.getLastD 0
    let historical := (volumes.drop (volumes.length - (window + 1))).take window
    let avg := npMean historical
    if avg ≤ 0 then 1
    else
      let rvol := recent / avg
      if rvol < 0 then 1 else rvol

/-- `FeatureCalculator.calculate_atr` (src/data/features.py:250-302).
With fewer than `period + 1` candles the source falls back to
`np.mean(high_prices - low_prices)` (simple ranges, not true ranges). -/
def calculate_atr (highs lows closes : List ℚ) (period : ℕ) : ℚ :=
  if highs.length < period + 1 then
    if highs.length > 0 then npMean (List.zipWith (· - ·) highs lows) else 0
  else
    let hl := List.zipWith (· - ·) highs lows
    let hc := hl.headD 0 :: List.zipWith (fun h c => |h - c|) (highs.drop 1) closes.dropLast
    let lc := hl.headD 0 :: List.zipWith (fun l c => |l - c|) (lows.drop 1) closes.dropLast
    let tr := List.zipWith max hl (List.zipWith max hc lc)
    if tr.length ≥ period then npMean (tr.drop (tr.length - period))
    else npMean tr

/-- The value claim C8 asserts for short inputs, written from the claim's
words for comparison with `calculate_atr`: the mean of the per-candle
true ranges `max(H−L, |H−Cprev|, |L−Cprev|)` (first candle: `H−L`),
with zero candles giving 0. -/
def claimed_atr_few_candles (highs lows closes : List ℚ) : ℚ :=
  match highs, lows with
  | [], _ => 0
  | _ :: _, _ =>
    let hl := List.zipWith (· - ·) highs lows
    let hc := hl.headD 0 :: List.zipWith (fun h c => |h - c|) (highs.drop 1) closes.dropLast
    let lc := hl.headD 0 :: List.zipWith (fun l c => |l - c|) (lows.drop 1) closes.dropLast
    npMean (List.zipWith max hl (List.zipWith max hc lc))

/-- C6: `calculate_rvol` returns `v[n-1] / mean(v[n-1-W .. n-2])` when
`n ≥ W+1` and that mean is positive, and exactly 1 when `n < W+1` or the
mean is ≤ 0 (over `ℚ` the source's non-finite guard cannot fire); volumes
`[100]*20 ++ [200]` with `W = 20` give exactly 2. -/
theorem rvol_matches_spec (v : List ℚ) (W : ℕ) (hlast : 0 ≤ v.getLastD 0) :
    (v.length < W + 1 → calculate_rvol v W = 1) ∧
    (W + 1 ≤ v.length →
      (npMean ((v.drop (v.length - (W + 1))).take W) ≤ 0 → calculate_rvol v W = 1) ∧
      (0 < npMean ((v.drop (v.length - (W + 1))).take W) →
        calculate_rvol v W
          = v.getLastD 0 / npMean ((v.drop (v.length - (W + 1))).take W))) ∧
    calculate_rvol (List.replicate 20 (100 : ℚ) ++ [200]) 20 = 2 := by
  refine ⟨fun h => by simp [calculate_rvol, h], fun h => ⟨fun hm => ?_, fun hm => ?_⟩, ?_⟩
  · simp [calculate_rvol, Nat.not_lt.mpr h, hm]
  · have hnn : 0 ≤ v.getLastD 0 / npMean ((v.drop (v.length - (W + 1))).take W) :=
      div_nonneg hlast hm.le
    rw [List.getLastD_eq_getLast?] at hnn
    simp [calculate_rvol, Nat.not_lt.mpr h, not_le.mpr hm, not_lt.mpr hnn]
  · norm_num [calculate_rvol, npMean, List.replicate]

/-- Witness for `rvol_matches_spec` at the concrete series of the claim. -/
theorem rvol_matches_spec_witness :
    calculate_rvol (List.replicate 20 (100 : ℚ) ++ [200]) 20 = 2 :=
  (rvol_matches_spec (List.replicate 20 (100 : ℚ) ++ [200]) 20 (by norm_num)).2.2

/-- C8 counterexample: on two candles with highs `[10,10]`, lows `[9,9]`,
closes `[5,9]` (fewer than 15 candles), the code returns the mean of the
simple ranges `H−L`, namely 1, not the mean of the true ranges, namely 3. -/
theorem atr_short_counterexample :
    calculate_atr [10, 10] [9, 9] [5, 9] 14 = 1 ∧
    claimed_atr_few_candles [10, 10] [9, 9] [5, 9] = 3 ∧
    calculate_atr [10, 10] [9, 9] [5, 9] 14
      ≠ claimed_atr_few_candles [10, 10] [9, 9] [5, 9] := by
  refine ⟨by norm_num [calculate_atr, npMean], by norm_num [claimed_atr_few_candles, npMean], ?_⟩
  norm_num [calculate_atr, claimed_atr_few_candles, npMean]

/-- C8 amended: with fewer than `period + 1` candles, `calculate_atr`
returns the mean of the simple ranges `H−L` of the candles that exist
(true range is not used in this branch); with exactly one candle the
result is `H−L`, and with zero candles it is 0. -/
theorem atr_short_simple_range :
    (∀ (highs lows closes : List ℚ) (period : ℕ),
      highs.length < period + 1 → 0 < highs.length →
      calculate_atr highs lows closes period = npMean (List.zipWith (· - ·) highs lows)) ∧
    (∀ (lows closes : List ℚ) (period : ℕ), calculate_atr [] lows closes period = 0) ∧
    (∀ (h l : ℚ) (closes : List ℚ) (period : ℕ), 0 < period →
      calculate_atr [h] [l] closes period = h - l) := by
  refine ⟨fun highs lows closes period hshort hpos => ?_, fun lows closes period => ?_,
    fun h l closes period hper => ?_⟩
  · simp [calculate_atr, hshort, hpos]
  · simp [calculate_atr]
  · have hlt : ([h] : List ℚ).length < period + 1 := by simpa using hper
    rw [calculate_atr, if_pos hlt]
    norm_num [npMean]

/-- Witness for `atr_short_simple_range` at one concrete candle. -/
theorem atr_short_simple_range_witness :
    calculate_atr [10] [9] [10] 14 = 1 := by
  have := atr_short_simple_range.2.2 10 9 [10] 14 (by norm_num)
  norm_num at this ⊢
  exact this

/-! ## Scanner hard filters (src/data/features.py, src/scanner/scanner.py) -/

/-- `FeatureResult` (src/data/features.py:28-54).  `spread_bp` is
`WithTop ℚ`: the source uses `float('inf')` for a missing or degenerate
orderbook.  `timestamp` is dropped (log metadata only). -/
structure FeatureResult where
  rvol : ℚ
  rs : ℚ
  svwap : ℚ
  atr_14 : ℚ
  ema_20 : ℚ
  ema_50 : ℚ
  trend : ℤ
  rvol_z : ℚ
  depth_score : ℚ
  final_score : ℚ
  price : ℚ
  volume : ℚ
  spread_bp : WithTop ℚ
  market : String
  data_points : ℕ
  deriving DecidableEq, Repr

/-- The scanner-relevant fields of `ScannerConfig` (src/utils/config.py):
`rvol_threshold` (default 2.0), `spread_bp_max` (default 5),
`min_score` (default 0.5), `candidate_count` (default 3). -/
structure ScannerConfig where
  rvol_threshold : ℚ
  spread_bp_max : ℚ
  min_score : ℚ
  candidate_count : ℕ
  deriving DecidableEq, Repr

/-- The four failure strings `validate_features` can append, as tags. -/
inductive FailedCriterion where
  | rvolLow
  | spreadHigh
  | trendNotOne
  | scoreLow
  deriving DecidableEq, Repr

/-- `FeatureCalculator.validate_features` (src/data/features.py:579-611):
collects failed criteria in source order; valid iff none failed. -/
def validate_features (result : FeatureResult) (config : ScannerConfig) :
    Bool × List FailedCriterion :=
  let failed :=
    (if result.rvol < config.rvol_threshold then [FailedCriterion.rvolLow] else []) ++
    (if (config.spread_bp_max : WithTop ℚ) < result.spread_bp
      then [FailedCriterion.spreadHigh] else []) ++
    (if result.trend ≠ 1 then [FailedCriterion.trendNotOne] else []) ++
    (if result.final_score < config.min_score then [FailedCriterion.scoreLow] else [])
  (failed.isEmpty, failed)

/-- `CandidateScanner.filter_candidates` (src/scanner/scanner.py:223-262):
keeps, in order, the results whose `validate_features` verdict is valid. -/
def filter_candidates (config : ScannerConfig) (feature_results : List FeatureResult) :
    List FeatureResult :=
  feature_results.filter (fun r => (validate_features r config).1)

/-- `CandidateScanner.rank_candidates` (src/scanner/scanner.py:264-302):
stable sort by `final_score` descending, then the top `candidate_count`. -/
def rank_candidates (config : ScannerConfig) (candidates : List FeatureResult) :
    List FeatureResult :=
  if candidates.isEmpty then []
  else (candidates.mergeSort
    (fun a b => decide (b.final_score ≤ a.final_score))).take config.candidate_count

/-- The conjunction of the four hard-filter conditions of the claim. -/
def passes_hard_filters (config : ScannerConfig) (r : FeatureResult) : Prop :=
  config.rvol_threshold ≤ r.rvol ∧ r.spread_bp ≤ (config.spread_bp_max : WithTop ℚ) ∧
    r.trend = 1 ∧ config.min_score ≤ r.final_score

instance (config : ScannerConfig) (r : FeatureResult) :
    Decidable (passes_hard_filters config r) := by
  unfold passes_hard_filters; infer_instance

/-- C3: a feature vector survives the filter stage iff all four hard-filter
conditions hold (`rvol ≥ threshold`, `spread_bp ≤ max`, `trend = 1`,
`final_score ≥ min_score`); and one that fails any condition never appears
in the ranked candidate output built from the filtered list. -/
theorem hard_filters_gate_candidates (config : ScannerConfig) :
    (∀ (rs : List FeatureResult) (r : FeatureResult),
      r ∈ filter_candidates config rs ↔ r ∈ rs ∧ passes_hard_filters config r) ∧
    (∀ (rs : List FeatureResult) (r : FeatureResult), ¬ passes_hard_filters config r →
      r ∉ rank_candidates config (filter_candidates config rs)) := by
  have hvalid : ∀ r : FeatureResult,
      (validate_features r config).1 = true ↔ passes_hard_filters config r := by
    intro r
    unfold validate_features passes_hard_filters
    by_cases c1 : r.rvol < config.rvol_threshold <;>
      by_cases c2 : (config.spread_bp_max : WithTop ℚ) < r.spread_bp <;>
        by_cases c3 : r.trend = 1 <;>
          by_cases c4 : r.final_score < config.min_score <;>
            simp [c1, c2, c3, c4, not_lt, not_le, le_of_lt] <;>
              exact ⟨not_lt.1 c1, not_lt.1 c2, not_lt.1 c4⟩
  constructor
  · intro rs r
    simp [filter_candidates, List.mem_filter, hvalid]
  · intro rs r hfail hmem
    have hmem' : r ∈ (filter_candidates config rs).mergeSort
        (fun a b => decide (b.final_score ≤ a.final_score)) := by
      unfold rank_candidates at hmem
      split at hmem
      · simp at hmem
      · exact (List.take_sublist _ _).mem hmem
    rw [List.mergeSort_perm _ _ |>.mem_iff] at hmem'
    have := (List.mem_filter.mp hmem').2
    rw [hvalid r] at this
    exact hfail this

/-- Witness for `hard_filters_gate_candidates`: a concrete feature vector
failing the RVOL filter is absent from the ranked output. -/
theorem hard_filters_gate_candidates_witness :
    let cfg : ScannerConfig := ⟨2, 5, 1/2, 3⟩
    let r : FeatureResult := ⟨1, 0, 0, 0, 0, 0, 1, 0, 0, 1, 0, 0, (3 : ℚ), "KRW-XRP", 21⟩
    r ∉ rank_candidates cfg (filter_candidates cfg [r]) := by
  intro cfg r
  refine (hard_filters_gate_candidates cfg).2 [r] r ?_
  intro hpass
  exact absurd hpass.1 (by norm_num [cfg, r])

/-! ## Candle validation (src/data/candles.py) -/

/-- A raw candle whose six required fields are present and parsable
(the claim quantifies over candle batches; missing-field and parse
errors only add to the error count the same way the checks below do).
`ts` is `candle_date_time_kst` in minutes. -/
structure RawCandle where
  opening_price : ℚ
  high_price : ℚ
  low_price : ℚ
  trade_price : ℚ
  candle_acc_trade_volume : ℚ
  ts : ℤ
  deriving DecidableEq, Repr

/-- Number of error strings the validation loop appends for one candle
(src/data/candles.py:130-148): `high < low`, non-positive prices,
negative volume. -/
def candle_error_count (c : RawCandle) : ℕ :=
  (if c.high_price < c.low_price then 1 else 0) +
  (if c.opening_price ≤ 0 ∨ c.high_price ≤ 0 ∨ c.low_price ≤ 0 ∨ c.trade_price ≤ 0
    then 1 else 0) +
  (if c.candle_acc_trade_volume < 0 then 1 else 0)

/-- `candle_valid` at the end of the loop body: no error condition fired. -/
def candle_is_valid (c : RawCandle) : Bool := candle_error_count c = 0

/-- Number of recorded time gaps (src/data/candles.py:158-164): adjacent
candles whose timestamp difference exceeds `1.5 ×` the candle unit. -/
def count_time_gaps (unit : ℕ) : List RawCandle → ℕ
  | [] => 0
  | [_] => 0
  | c1 :: c2 :: rest =>
    (if (unit : ℚ) * (3 / 2) < ((c2.ts - c1.ts : ℤ) : ℚ) then 1 else 0) +
      count_time_gaps unit (c2 :: rest)

/-- `CandleValidationResult` (src/data/candles.py:26-37); `time_gaps` is
the length of the recorded gap list, string lists are kept as counts. -/
structure CandleValidationResult where
  is_valid : Bool
  total_candles : ℕ
  valid_candles : ℕ
  time_gaps : ℕ
  data_quality_score : ℚ
  error_count : ℕ
  deriving DecidableEq, Repr

/-- `CandleProcessor.validate_candle_data` (src/data/candles.py:61-212).
The empty batch returns the dedicated "no data" result; otherwise the
quality score is `max(0, valid/total − min(0.1·gaps, 0.5))` and the batch
is valid iff there are no errors, at least 90% valid candles and a score
of at least 0.7. -/
def validate_candle_data (unit : ℕ) (candles : List RawCandle) : CandleValidationResult :=
  if candles.isEmpty then ⟨false, 0, 0, 0, 0, 1⟩
  else
    let total := candles.length
    let valid := candles.countP candle_is_valid
    let gaps := count_time_gaps unit candles
    let errors := (candles.map candle_error_count).sum
    let completeness : ℚ := (valid : ℚ) / (total : ℚ)
    let gap_penalty : ℚ := min ((gaps : ℚ) * (1 / 10)) (1 / 2)
    let score := max 0 (completeness - gap_penalty)
    let ok := errors = 0 ∧ (total : ℚ) * (9 / 10) ≤ (valid : ℚ) ∧ (7 / 10 : ℚ) ≤ score
    ⟨decide ok, total, valid, gaps, score, errors⟩

/-- The score claim C7 asserts, written from the claim's words for
comparison with `validate_candle_data`: `max(0, valid/total − 0.1·gaps)`
capped at 1, with no cap on the gap penalty itself. -/
def claimed_quality_score (valid total gaps : ℕ) : ℚ :=
  min (max 0 ((valid : ℚ) / (total : ℚ) - (gaps : ℚ) * (1 / 10))) 1

/-- C7 counterexample: seven well-formed candles spaced 100 minutes apart
(unit 5) produce 6 gaps; the code caps the gap penalty at 0.5 and scores
the batch 1/2, while the claim's uncapped formula gives 2/5. -/
theorem candle_quality_counterexample :
    (validate_candle_data 5
        [⟨1, 1, 1, 1, 0, 0⟩, ⟨1, 1, 1, 1, 0, 100⟩, ⟨1, 1, 1, 1, 0, 200⟩,
         ⟨1, 1, 1, 1, 0, 300⟩, ⟨1, 1, 1, 1, 0, 400⟩, ⟨1, 1, 1, 1, 0, 500⟩,
         ⟨1, 1, 1, 1, 0, 600⟩]).data_quality_score = 1 / 2 ∧
    claimed_quality_score 7 7 6 = 2 / 5 ∧
    (validate_candle_data 5
        [⟨1, 1, 1, 1, 0, 0⟩, ⟨1, 1, 1, 1, 0, 100⟩, ⟨1, 1, 1, 1, 0, 200⟩,
         ⟨1, 1, 1, 1, 0, 300⟩, ⟨1, 1, 1, 1, 0, 400⟩, ⟨1, 1, 1, 1, 0, 500⟩,
         ⟨1, 1, 1, 1, 0, 600⟩]).data_quality_score ≠ claimed_quality_score 7 7 6 := by
  refine ⟨?_, ?_, ?_⟩ <;>
    norm_num [validate_candle_data, claimed_quality_score, candle_is_valid,
      candle_error_count, count_time_gaps, List.countP, List.countP.go]

/-- C7 amended: for every non-empty batch the quality score is
`max(0, valid/total − min(0.1·gaps, 0.5))` — the gap penalty is capped at
0.5 (the cap at 1 is implied since `valid/total ≤ 1`) — and the batch is
reported valid exactly when there are zero errors, `valid ≥ 0.9·total`,
and the score is ≥ 0.7. -/
theorem candle_quality_formula (unit : ℕ) (candles : List RawCandle)
    (hne : candles ≠ []) :
    (validate_candle_data unit candles).data_quality_score =
      max 0 ((candles.countP candle_is_valid : ℚ) / (candles.length : ℚ) -
        min ((count_time_gaps unit candles : ℚ) * (1 / 10)) (1 / 2)) ∧
    ((validate_candle_data unit candles).is_valid = true ↔
      ((candles.map candle_error_count).sum = 0 ∧
        (candles.length : ℚ) * (9 / 10) ≤ (candles.countP candle_is_valid : ℚ) ∧
        (7 / 10 : ℚ) ≤ (validate_candle_data unit candles).data_quality_score)) := by
  have h : candles.isEmpty = false := by simpa using hne
  constructor
  · simp [validate_candle_data, h]
  · simp [validate_candle_data, h, decide_eq_true_iff]

/-- Witness for `candle_quality_formula` on a one-candle batch. -/
theorem candle_quality_formula_witness :
    (validate_candle_data 5 [⟨1, 1, 1, 1, 0, 0⟩]).data_quality_score = 1 ∧
      (validate_candle_data 5 [⟨1, 1, 1, 1, 0, 0⟩]).is_valid = true := by
  have h := candle_quality_formula 5 [⟨1, 1, 1, 1, 0, 0⟩] (by simp)
  refine ⟨?_, ?_⟩
  · rw [h.1]
    norm_num [candle_is_valid, candle_error_count, count_time_gaps,
      List.countP, List.countP.go]
  · rw [h.2]
    refine ⟨by norm_num [candle_error_count], by
      norm_num [candle_is_valid, candle_error_count, List.countP, List.countP.go], ?_⟩
    rw [h.1]
    norm_num [candle_is_valid, candle_error_count, count_time_gaps,
      List.countP, List.countP.go]

/-! ## Risk Guard (src/risk/guard.py) -/

/-- The `RiskConfig` fields the Risk Guard reads (src/utils/config.py:147-159);
`min_risk_reward` embeds the source field `min_risk_reward_` + `ratio`. -/
structure RiskConfig where
  per_trade_risk_pct : ℚ
  min_position_krw : ℚ
  max_position_krw : ℚ
  daily_drawdown_stop_pct : ℚ
  same_symbol_consecutive_losses_stop : ℕ
  min_risk_reward : ℚ
  deriving DecidableEq, Repr

/-- `RiskGuard.calculate_position_size` (src/risk/guard.py:241-305), with
the guard's `current_balance` passed explicitly.  `risk_percentage = none`
selects the configured per-trade risk. -/
def calculate_position_size (config : RiskConfig) (current_balance : ℚ)
    (entry_price stop_loss : ℚ) (risk_percentage : Option ℚ) : ℚ × ℚ :=
  let risk_pct := risk_percentage.getD config.per_trade_risk_pct
  if current_balance ≤ 0 then (0, 0)
  else
    let risk_per_unit := |entry_price - stop_loss|
    if risk_per_unit ≤ 0 then (0, 0)
    else
      let max_risk_amount := current_balance * risk_pct
      let position_size := max_risk_amount / risk_per_unit
      let position_value := position_size * entry_price
      let final_size :=
        if position_value < config.min_position_krw then
          config.min_position_krw / entry_price
        else if config.max_position_krw < position_value then
          config.max_position_krw / entry_price
        else position_size
      (final_size, final_size * risk_per_unit)

/-- C4: with positive balance and entry, `calculate_position_size` fails
fast to `(0, 0)` when `entry = stop`; otherwise the raw quantity is
`balance·risk_pct / |entry − stop|`, it is replaced by the violated
notional bound divided by the entry price when `raw·entry` leaves
`[min_position_krw, max_position_krw]` (so the final notional stays in
that interval), and the returned risk amount is the final quantity times
`|entry − stop|`.  The concrete sizing example of the claim follows with
the default clamps. -/
theorem position_size_spec (config : RiskConfig) (b e s : ℚ) (r : Option ℚ)
    (hb : 0 < b) (he : 0 < e) (hmin : 0 ≤ config.min_position_krw)
    (hmm : config.min_position_krw ≤ config.max_position_krw) :
    (e = s → calculate_position_size config b e s r = (0, 0)) ∧
    (e ≠ s →
      (b * r.getD config.per_trade_risk_pct / |e - s| * e < config.min_position_krw →
        (calculate_position_size config b e s r).1 = config.min_position_krw / e) ∧
      (config.max_position_krw < b * r.getD config.per_trade_risk_pct / |e - s| * e →
        (calculate_position_size config b e s r).1 = config.max_position_krw / e) ∧
      (config.min_position_krw ≤ b * r.getD config.per_trade_risk_pct / |e - s| * e →
        b * r.getD config.per_trade_risk_pct / |e - s| * e ≤ config.max_position_krw →
        (calculate_position_size config b e s r).1
          = b * r.getD config.per_trade_risk_pct / |e - s|) ∧
      config.min_position_krw ≤ (calculate_position_size config b e s r).1 * e ∧
      (calculate_position_size config b e s r).1 * e ≤ config.max_position_krw ∧
      (calculate_position_size config b e s r).2
        = (calculate_position_size config b e s r).1 * |e - s|) ∧
    calculate_position_size ⟨1/250, 10000, 500000, 1/100, 2, 1⟩
      1000000 50000 49000 (some (1/100)) = (10, 10000) := by
  have hbne : ¬ b ≤ 0 := not_le.mpr hb
  refine ⟨fun hes => ?_, fun hes => ?_, ?_⟩
  · simp [calculate_position_size, hbne, hes]
  · have hrpu : 0 < |e - s| := abs_pos.mpr (sub_ne_zero.mpr hes)
    have hrpun : ¬ |e - s| ≤ 0 := not_le.mpr hrpu
    simp only [calculate_position_size, if_neg hbne, if_neg hrpun]
    by_cases h1 : b * r.getD config.per_trade_risk_pct / |e - s| * e < config.min_position_krw
    · simp only [if_pos h1]
      have hq : config.min_position_krw / e * e = config.min_position_krw :=
        div_mul_cancel₀ _ he.ne'
      exact ⟨fun _ => trivial,
        fun h2 => ((lt_irrefl _ ((h1.trans_le hmm).trans h2)).elim),
        fun h3 _ => ((not_le.mpr h1) h3).elim,
        by rw [hq], by rw [hq]; exact hmm, trivial⟩
    · by_cases h2 : config.max_position_krw
          < b * r.getD config.per_trade_risk_pct / |e - s| * e
      · simp only [if_neg h1, if_pos h2]
        have hq : config.max_position_krw / e * e = config.max_position_krw :=
          div_mul_cancel₀ _ he.ne'
        exact ⟨fun h => (h1 h).elim, fun _ => trivial,
          fun _ h3 => ((not_le.mpr h2) h3).elim,
          by rw [hq]; exact hmm, by rw [hq], trivial⟩
      · simp only [if_neg h1, if_neg h2]
        exact ⟨fun h => (h1 h).elim, fun h => (h2 h).elim, fun _ _ => trivial,
          not_lt.mp h1, not_lt.mp h2, trivial⟩
  · have habs : |(50000 : ℚ) - 49000| = 1000 := by norm_num [abs_of_pos]
    norm_num [calculate_position_size, habs]

/-- Witness for `position_size_spec`: the claim's concrete sizing example,
balance 1,000,000 KRW, risk 1%, entry 50,000, stop 49,000 with the default
notional clamps, gives quantity 10 and risk amount 10,000. -/
theorem position_size_spec_witness :
    calculate_position_size ⟨1/250, 10000, 500000, 1/100, 2, 1⟩
      1000000 50000 49000 (some (1/100)) = (10, 10000) :=
  (position_size_spec ⟨1/250, 10000, 500000, 1/100, 2, 1⟩ 1000000 50000 49000
    (some (1/100)) (by norm_num) (by norm_num) (by norm_num) (by norm_num)).2.2

/-- `DailyRisk` (src/risk/guard.py:45-57); `date` is the KST trading date
as an integer day number (ISO date strings compare lexicographically,
matching this order). -/
structure DailyRisk where
  date : ℤ
  starting_balance : ℚ
  current_balance : ℚ
  daily_pnl : ℚ
  daily_pnl_percentage : ℚ
  max_daily_loss : ℚ
  trades_today : ℕ
  losing_trades_today : ℕ
  is_ddl_hit : Bool
  deriving DecidableEq, Repr

/-- `MarketRisk` (src/risk/guard.py:60-71). -/
structure MarketRisk where
  market : String
  consecutive_losses : ℕ
  last_loss_date : Option ℤ
  total_trades : ℕ
  winning_trades : ℕ
  losing_trades : ℕ
  is_banned : Bool
  ban_expiry_date : Option ℤ
  deriving DecidableEq, Repr

/-- The in-memory state of `RiskGuard` (src/risk/guard.py:115-118);
`market_risks` is the dict as an insertion-ordered association list. -/
structure RiskGuardState where
  current_balance : ℚ
  daily_risk : Option DailyRisk
  market_risks : List (String × MarketRisk)
  deriving DecidableEq, Repr

/-- Python dict assignment `self.market_risks[market] = mr`: replace the
entry when the key is present, append it otherwise. -/
def setMarketRisk : List (String × MarketRisk) → String → MarketRisk →
    List (String × MarketRisk)
  | [], m, mr => [(m, mr)]
  | p :: rest, m, mr =>
    if p.1 = m then (m, mr) :: rest else p :: setMarketRisk rest m mr

/-- The fresh `MarketRisk` created on first contact with a market
(src/risk/guard.py:335-344 and 467-476). -/
def freshMarketRisk (market : String) : MarketRisk :=
  ⟨market, 0, none, 0, 0, 0, false, none⟩

/-- The fresh `DailyRisk` created for a new trading day
(src/risk/guard.py:184-194). -/
def freshDailyRisk (config : RiskConfig) (today : ℤ) (balance : ℚ) : DailyRisk :=
  ⟨today, balance, balance, 0, 0, balance * config.daily_drawdown_stop_pct, 0, 0, false⟩

/-- `RiskGuard.update_account_balance` (src/risk/guard.py:170-239):
start a new daily record when the stored date differs from today,
otherwise recompute P&L and latch the DDL flag. -/
def update_account_balance (config : RiskConfig) (today : ℤ) (balance : ℚ)
    (st : RiskGuardState) : RiskGuardState :=
  let st := { st with current_balance := balance }
  match st.daily_risk with
  | some dr =>
    if dr.date = today then
      let pnl := balance - dr.starting_balance
      let pct := if 0 < dr.starting_balance then pnl / dr.starting_balance else 0
      let hit := if pct ≤ -config.daily_drawdown_stop_pct then true else dr.is_ddl_hit
      { st with daily_risk := some { dr with
          current_balance := balance
          daily_pnl := pnl
          daily_pnl_percentage := pct
          is_ddl_hit := hit } }
    else { st with daily_risk := some (freshDailyRisk config today balance) }
  | none => { st with daily_risk := some (freshDailyRisk config today balance) }

/-- The rejection-reason strings of `assess_trade_risk`, as tags. -/
inductive RejectionReason where
  | ddlHit
  | marketBanned
  | noBalance
  | poorRiskReward
  deriving DecidableEq, Repr

/-- The warning strings of `assess_trade_risk`, as tags. -/
inductive RiskWarning where
  | sizeBelowMin
  | sizeCapped
  | consecutiveLosses
  deriving DecidableEq, Repr

/-- The common signal fields `assess_trade_risk` reads (all three signal
variants expose them; src/signals/*.py). -/
structure TradingSignal where
  entry_price : ℚ
  stop_loss : ℚ
  take_profit : ℚ
  deriving DecidableEq, Repr

/-- `TradeRisk` (src/risk/guard.py:30-42); `risk_reward` embeds the source
field `risk_reward_` + `ratio`. -/
structure TradeRisk where
  market : String
  entry_price : ℚ
  stop_loss : ℚ
  position_size : ℚ
  risk_amount : ℚ
  risk_percentage : ℚ
  reward_amount : ℚ
  risk_reward : ℚ
  max_position_value : ℚ
  deriving DecidableEq, Repr

/-- `RiskAssessment` (src/risk/guard.py:74-83). -/
structure RiskAssessment where
  is_allowed : Bool
  trade_risk : Option TradeRisk
  daily_risk : DailyRisk
  market_risk : MarketRisk
  rejection_reasons : List RejectionReason
  warnings : List RiskWarning
  deriving DecidableEq, Repr

/-- `RiskGuard.assess_trade_risk` (src/risk/guard.py:308-438).  Returns
the mutated state (market-risk creation and expired-ban clearing) together
with the assessment. -/
def assess_trade_risk (config : RiskConfig) (today : ℤ) (market : String)
    (signal : TradingSignal) (custom_risk_pct : Option ℚ) (st : RiskGuardState) :
    RiskGuardState × RiskAssessment :=
  let st := if st.daily_risk.isNone
    then update_account_balance config today st.current_balance st else st
  let daily := st.daily_risk.getD (freshDailyRisk config today st.current_balance)
  let mr0 := (st.market_risks.lookup market).getD (freshMarketRisk market)
  let st := { st with market_risks := setMarketRisk st.market_risks market mr0 }
  let r1 : List RejectionReason := if daily.is_ddl_hit then [.ddlHit] else []
  let banStep : MarketRisk × List RejectionReason :=
    if mr0.is_banned then
      match mr0.ban_expiry_date with
      | some expiry =>
        if expiry ≤ today then
          ({ mr0 with
              is_banned := false
              ban_expiry_date := none
              consecutive_losses := 0 }, [])
        else (mr0, [.marketBanned])
      | none => (mr0, [.marketBanned])
    else (mr0, [])
  let mr1 := banStep.1
  let st := { st with market_risks := setMarketRisk st.market_risks market mr1 }
  let r3 : List RejectionReason := if st.current_balance ≤ 0 then [.noBalance] else []
  let reasons0 := r1 ++ banStep.2 ++ r3
  if reasons0.isEmpty then
    let sizing := calculate_position_size config st.current_balance
      signal.entry_price signal.stop_loss custom_risk_pct
    let position_value := sizing.1 * signal.entry_price
    let risk_percentage :=
      if 0 < st.current_balance then sizing.2 / st.current_balance * 100 else 0
    let reward_amount := |signal.take_profit - signal.entry_price| * sizing.1
    let rr := if 0 < sizing.2 then reward_amount / sizing.2 else 0
    let trade_risk : TradeRisk := ⟨market, signal.entry_price, signal.stop_loss,
      sizing.1, sizing.2, risk_percentage, reward_amount, rr, position_value⟩
    let reasons := reasons0 ++
      (if rr < config.min_risk_reward then [.poorRiskReward] else [])
    let warnings :=
      (if position_value < config.min_position_krw then [RiskWarning.sizeBelowMin]
        else if config.max_position_krw < position_value then [RiskWarning.sizeCapped]
        else []) ++
      (if 1 ≤ mr1.consecutive_losses then [RiskWarning.consecutiveLosses] else [])
    (st, ⟨reasons.isEmpty, some trade_risk, daily, mr1, reasons, warnings⟩)
  else
    (st, ⟨reasons0.isEmpty, none, daily, mr1, reasons0, []⟩)

/-- The per-market mutation block of `record_trade_result`
(src/risk/guard.py:478-516): bump totals; a win resets
`consecutive_losses`; a loss increments it, stamps the loss date and,
at the configured threshold, bans the market until tomorrow. -/
def record_market_update (config : RiskConfig) (today : ℤ) (is_winning_trade : Bool)
    (mr0 : MarketRisk) : MarketRisk :=
  let mr1 := { mr0 with total_trades := mr0.total_trades + 1 }
  if is_winning_trade then
    { mr1 with winning_trades := mr1.winning_trades + 1, consecutive_losses := 0 }
  else
    let mrl := { mr1 with
      losing_trades := mr1.losing_trades + 1
      consecutive_losses := mr1.consecutive_losses + 1
      last_loss_date := some today }
    if config.same_symbol_consecutive_losses_stop ≤ mrl.consecutive_losses then
      { mrl with is_banned := true, ban_expiry_date := some (today + 1) }
    else mrl

/-- `RiskGuard.record_trade_result` (src/risk/guard.py:440-534).  The
`_entry_price`, `_exit_price`, `_position_size` arguments are only logged
by the source and do not influence the state. -/
def record_trade_result (config : RiskConfig) (today : ℤ) (market : String)
    (_entry_price _exit_price _position_size : ℚ) (is_winning_trade : Bool)
    (pnl : ℚ) (st : RiskGuardState) : RiskGuardState :=
  let st := match st.daily_risk with
    | some dr => { st with daily_risk := some { dr with
        trades_today := dr.trades_today + 1
        losing_trades_today :=
          dr.losing_trades_today + (if is_winning_trade then 0 else 1) } }
    | none => st
  let mr2 := record_market_update config today is_winning_trade
    ((st.market_risks.lookup market).getD (freshMarketRisk market))
  let st := { st with market_risks := setMarketRisk st.market_risks market mr2 }
  update_account_balance config today (st.current_balance + pnl) st

/-- One iteration of the `clear_market_bans` loop body for a single
market record: clears the ban when it is set, has an expiry, and the
expiry is on or before today; returns the cleared flag count. -/
def clearOne (today : ℤ) (mr : MarketRisk) : MarketRisk × ℕ :=
  match mr.ban_expiry_date with
  | some expiry =>
    if mr.is_banned ∧ expiry ≤ today then
      ({ mr with
          is_banned := false
          ban_expiry_date := none
          consecutive_losses := 0 }, 1)
    else (mr, 0)
  | none => (mr, 0)

/-- `RiskGuard.clear_market_bans` (src/risk/guard.py:610-631). -/
def clear_market_bans (today : ℤ) (st : RiskGuardState) : RiskGuardState × ℕ :=
  ({ st with market_risks :=
      st.market_risks.map (fun p => (p.1, (clearOne today p.2).1)) },
    (st.market_risks.map (fun p => (clearOne today p.2).2)).sum)

theorem lookup_setMarketRisk (l : List (String × MarketRisk)) (m : String)
    (mr : MarketRisk) : (setMarketRisk l m mr).lookup m = some mr := by
  induction l with
  | nil => simp [setMarketRisk]
  | cons p rest ih =>
    rcases p with ⟨k, v⟩
    by_cases h : k = m
    · subst h; simp [setMarketRisk]
    · have hbe : (m == k) = false := beq_eq_false_iff_ne.mpr (Ne.symm h)
      simp [setMarketRisk, h, List.lookup, hbe, ih]

theorem update_account_balance_markets (config : RiskConfig) (today : ℤ)
    (balance : ℚ) (st : RiskGuardState) :
    (update_account_balance config today balance st).market_risks = st.market_risks := by
  rcases hd : st.daily_risk with _ | dr <;> simp [update_account_balance, hd]
  split <;> rfl

theorem record_trade_result_markets (config : RiskConfig) (today : ℤ) (M : String)
    (e x s : ℚ) (w : Bool) (pnl : ℚ) (st : RiskGuardState) :
    ∃ mr, (record_trade_result config today M e x s w pnl st).market_risks
      = setMarketRisk st.market_risks M mr ∧
      (record_trade_result config today M e x s w pnl st).market_risks.lookup M
        = some mr := by
  unfold record_trade_result
  rcases hd : st.daily_risk with _ | dr <;>
    simp only [hd] <;>
    exact ⟨_, by rw [update_account_balance_markets], by
      rw [update_account_balance_markets]; exact lookup_setMarketRisk _ _ _⟩

/-- C1: when `update_account_balance` runs on the stored daily date and the
resulting daily P&L percentage is at or below the negative drawdown stop,
the daily record has `is_ddl_hit = true`; and any `assess_trade_risk` call
made while `is_ddl_hit = true` — whatever the market, signal, risk override
or call date — returns `is_allowed = false` carrying the DDL rejection
reason. -/
theorem ddl_latch_and_block (config : RiskConfig) (today : ℤ) (balance : ℚ)
    (st : RiskGuardState) (market : String) (signal : TradingSignal)
    (custom : Option ℚ) (dr dru : DailyRisk) :
    (st.daily_risk = some dr → dr.date = today →
      (update_account_balance config today balance st).daily_risk = some dru →
      dru.daily_pnl_percentage ≤ -config.daily_drawdown_stop_pct →
      dru.is_ddl_hit = true) ∧
    (st.daily_risk = some dr → dr.is_ddl_hit = true →
      (assess_trade_risk config today market signal custom st).2.is_allowed = false ∧
      RejectionReason.ddlHit ∈
        (assess_trade_risk config today market signal custom st).2.rejection_reasons) := by
  constructor
  · intro h1 h2 h3 h4
    simp only [update_account_balance, h1, h2, if_true, Option.some.injEq] at h3
    subst h3
    simp only at h4 ⊢
    simp [h4]
  · intro h1 h2
    simp only [assess_trade_risk, h1, Option.isNone_some, Bool.false_eq_true, if_false,
      Option.getD_some, h2, if_true, ite_true, List.singleton_append, List.cons_append,
      List.isEmpty_cons, Bool.false_eq_true]
    constructor
    · trivial
    · exact List.mem_cons_self _ _

/-- Witness for `ddl_latch_and_block`: the claim's DDL scenario — starting
balance 1,000,000, balance update to 940,000 on the same day (−6% ≤ −1%)
latches the flag, and the following assessment is rejected. -/
theorem ddl_latch_and_block_witness :
    (update_account_balance ⟨1/250, 10000, 500000, 1/100, 2, 1⟩ 0 940000
        ⟨1000000, some ⟨0, 1000000, 1000000, 0, 0, 10000, 0, 0, false⟩, []⟩).daily_risk
      = some ⟨0, 1000000, 940000, -60000, -3/50, 10000, 0, 0, true⟩ ∧
    (⟨0, 1000000, 940000, -60000, -3/50, 10000, 0, 0, true⟩ : DailyRisk).is_ddl_hit
      = true ∧
    (assess_trade_risk ⟨1/250, 10000, 500000, 1/100, 2, 1⟩ 0 "KRW-BTC"
        ⟨50000, 49000, 51500⟩ none
        ⟨940000, some ⟨0, 1000000, 940000, -60000, -3/50, 10000, 0, 0, true⟩, []⟩).2.is_allowed
      = false := by
  have hupd : (update_account_balance ⟨1/250, 10000, 500000, 1/100, 2, 1⟩ 0 940000
      ⟨1000000, some ⟨0, 1000000, 1000000, 0, 0, 10000, 0, 0, false⟩, []⟩).daily_risk
      = some ⟨0, 1000000, 940000, -60000, -3/50, 10000, 0, 0, true⟩ := by
    norm_num [update_account_balance]
  refine ⟨hupd, ?_, ?_⟩
  · exact (ddl_latch_and_block ⟨1/250, 10000, 500000, 1/100, 2, 1⟩ 0 940000
      ⟨1000000, some ⟨0, 1000000, 1000000, 0, 0, 10000, 0, 0, false⟩, []⟩ "KRW-BTC"
      ⟨50000, 49000, 51500⟩ none ⟨0, 1000000, 1000000, 0, 0, 10000, 0, 0, false⟩
      ⟨0, 1000000, 940000, -60000, -3/50, 10000, 0, 0, true⟩).1 rfl rfl hupd (by norm_num)
  · exact ((ddl_latch_and_block ⟨1/250, 10000, 500000, 1/100, 2, 1⟩ 0 940000
      ⟨940000, some ⟨0, 1000000, 940000, -60000, -3/50, 10000, 0, 0, true⟩, []⟩ "KRW-BTC"
      ⟨50000, 49000, 51500⟩ none ⟨0, 1000000, 940000, -60000, -3/50, 10000, 0, 0, true⟩
      ⟨0, 1000000, 940000, -60000, -3/50, 10000, 0, 0, true⟩).2 rfl rfl).1

theorem clearOne_idem (today : ℤ) (mr : MarketRisk) :
    clearOne today (clearOne today mr).1 = ((clearOne today mr).1, 0) := by
  rcases he : mr.ban_expiry_date with _ | expiry
  · simp [clearOne, he]
  · by_cases hc : mr.is_banned ∧ expiry ≤ today <;> simp [clearOne, he, hc]

theorem update_account_balance_fixed (config : RiskConfig) (today : ℤ) (x : ℚ)
    (st : RiskGuardState) (dr : DailyRisk)
    (hd : st.daily_risk = some dr) (hb : st.current_balance = x)
    (hdate : dr.date = today) (hcb : dr.current_balance = x)
    (hpnl : dr.daily_pnl = x - dr.starting_balance)
    (hpct : dr.daily_pnl_percentage =
      if 0 < dr.starting_balance then (x - dr.starting_balance) / dr.starting_balance else 0)
    (hhit : (if 0 < dr.starting_balance
        then (x - dr.starting_balance) / dr.starting_balance else 0)
        ≤ -config.daily_drawdown_stop_pct → dr.is_ddl_hit = true) :
    update_account_balance config today x st = st := by
  rcases st with ⟨cb, od, M⟩
  rcases dr with ⟨dt, sb, dcb, pnl, pct, mdl, tt, lt, hit⟩
  simp only at hd hb hdate hcb hpnl hpct hhit
  subst hd hb hdate hcb hpnl hpct
  simp only [update_account_balance, RiskGuardState.mk.injEq, Option.some.injEq,
    DailyRisk.mk.injEq, if_pos]
  simp [ite_eq_right_iff]
  intro h
  exact hhit h

/-- C9: updating the account balance twice in a row with the same balance
on the same day leaves the whole Risk Guard state as after one update
(for any positive configured drawdown stop, as the config validator
enforces); clearing market bans twice leaves the market-risk map as after
one call, and the second call clears 0 bans. -/
theorem riskguard_idempotence (config : RiskConfig) (today : ℤ) (x : ℚ)
    (st : RiskGuardState) (hstop : 0 < config.daily_drawdown_stop_pct) :
    update_account_balance config today x (update_account_balance config today x st)
      = update_account_balance config today x st ∧
    (clear_market_bans today (clear_market_bans today st).1).1
      = (clear_market_bans today st).1 ∧
    (clear_market_bans today (clear_market_bans today st).1).2 = 0 := by
  have hfreshfix : ∀ M : List (String × MarketRisk),
      update_account_balance config today x
        ⟨x, some (freshDailyRisk config today x), M⟩
      = ⟨x, some (freshDailyRisk config today x), M⟩ := by
    intro M
    refine update_account_balance_fixed config today x _ _ rfl rfl rfl rfl
      (by simp [freshDailyRisk]) (by simp [freshDailyRisk, sub_self, zero_div, ite_self])
      (fun h => ?_)
    exfalso
    simp only [freshDailyRisk, sub_self, zero_div, ite_self] at h
    linarith
  refine ⟨?_, ?_, ?_⟩
  · rcases hst : st.daily_risk with _ | dr
    · have e1 : update_account_balance config today x st
          = ⟨x, some (freshDailyRisk config today x), st.market_risks⟩ := by
        rcases st with ⟨cb, od, M⟩
        simp only at hst
        subst hst
        simp [update_account_balance]
      rw [e1, hfreshfix]
    · by_cases hdate : dr.date = today
      · have e1 : update_account_balance config today x st
            = ⟨x, some { dr with
                current_balance := x
                daily_pnl := x - dr.starting_balance
                daily_pnl_percentage := if 0 < dr.starting_balance
                  then (x - dr.starting_balance) / dr.starting_balance else 0
                is_ddl_hit := if (if 0 < dr.starting_balance
                    then (x - dr.starting_balance) / dr.starting_balance else 0)
                    ≤ -config.daily_drawdown_stop_pct then true else dr.is_ddl_hit },
              st.market_risks⟩ := by
          rcases st with ⟨cb, od, M⟩
          simp only at hst
          subst hst
          simp [update_account_balance, hdate]
        rw [e1]
        refine update_account_balance_fixed config today x _ _ rfl rfl hdate rfl rfl rfl
          (fun h => ?_)
        simp only
        rw [if_pos h]
      · have e1 : update_account_balance config today x st
            = ⟨x, some (freshDailyRisk config today x), st.market_risks⟩ := by
          rcases st with ⟨cb, od, M⟩
          simp only at hst
          subst hst
          simp [update_account_balance, hdate]
        rw [e1, hfreshfix]
  · simp only [clear_market_bans, List.map_map]
    refine congrArg _ ?_
    apply List.map_congr_left
    intro p _
    simp [Function.comp, clearOne_idem]
  · simp only [clear_market_bans, List.map_map]
    apply List.sum_eq_zero
    intro n hn
    simp only [List.mem_map, Function.comp] at hn
    obtain ⟨p, _, hp⟩ := hn
    rw [← hp]
    simp [clearOne_idem]

/-- Witness for `riskguard_idempotence` at a concrete state with one
expired ban. -/
theorem riskguard_idempotence_witness :
    update_account_balance ⟨1/250, 10000, 500000, 1/100, 2, 1⟩ 5 900000
        (update_account_balance ⟨1/250, 10000, 500000, 1/100, 2, 1⟩ 5 900000
          ⟨1000000, some ⟨5, 1000000, 1000000, 0, 0, 10000, 1, 0, false⟩,
            [("KRW-ETH", ⟨"KRW-ETH", 2, some 4, 3, 1, 2, true, some 5⟩)]⟩)
      = update_account_balance ⟨1/250, 10000, 500000, 1/100, 2, 1⟩ 5 900000
          ⟨1000000, some ⟨5, 1000000, 1000000, 0, 0, 10000, 1, 0, false⟩,
            [("KRW-ETH", ⟨"KRW-ETH", 2, some 4, 3, 1, 2, true, some 5⟩)]⟩ ∧
    (clear_market_bans 5 (clear_market_bans 5
        ⟨1000000, some ⟨5, 1000000, 1000000, 0, 0, 10000, 1, 0, false⟩,
          [("KRW-ETH", ⟨"KRW-ETH", 2, some 4, 3, 1, 2, true, some 5⟩)]⟩).1).2 = 0 := by
  refine ⟨(riskguard_idempotence ⟨1/250, 10000, 500000, 1/100, 2, 1⟩ 5 900000
    ⟨1000000, some ⟨5, 1000000, 1000000, 0, 0, 10000, 1, 0, false⟩,
      [("KRW-ETH", ⟨"KRW-ETH", 2, some 4, 3, 1, 2, true, some 5⟩)]⟩ (by norm_num)).1,
    (riskguard_idempotence ⟨1/250, 10000, 500000, 1/100, 2, 1⟩ 5 900000
    ⟨1000000, some ⟨5, 1000000, 1000000, 0, 0, 10000, 1, 0, false⟩,
      [("KRW-ETH", ⟨"KRW-ETH", 2, some 4, 3, 1, 2, true, some 5⟩)]⟩ (by norm_num)).2.2⟩

/-! ## Order executor (src/order/executor.py) -/

/-- `OrderStatus` (src/order/executor.py:36-44). -/
inductive OrderStatus where
  | pending
  | submitted
  | filled
  | partiallyFilled
  | cancelled
  | rejected
  | expired
  deriving DecidableEq, Repr

/-- `OrderSide` (src/order/executor.py:55-58). -/
inductive OrderSide where
  | buy
  | sell
  deriving DecidableEq, Repr

/-- The `OrderResult` fields `close_position` reads
(src/order/executor.py:77-109); timestamps are integers. -/
structure OrderResult where
  order_id : String
  status : OrderStatus
  market : String
  side : OrderSide
  quantity_requested : ℚ
  quantity_filled : ℚ
  price_requested : Option ℚ
  price_filled : Option ℚ
  fill_time : Option ℤ
  submit_time : ℤ
  commission : ℚ
  slippage_bp : ℚ
  deriving DecidableEq, Repr

/-- `Position` (src/order/executor.py:112-134). -/
structure Position where
  market : String
  side : OrderSide
  entry_price : ℚ
  quantity : ℚ
  entry_time : ℤ
  entry_order_id : String
  stop_loss_order_id : Option String
  take_profit_order_id : Option String
  unrealized_pnl : ℚ
  realized_pnl : ℚ
  is_active : Bool
  exit_time : Option ℤ
  exit_price : Option ℚ
  exit_reason : Option String
  deriving DecidableEq, Repr

/-- `OrderExecutor.close_position` (src/order/executor.py:788-873), with
the submitted close order's result passed in (`submit_order` is gateway /
RNG territory and the claim conditions on its outcome).  Returns the
position as left by the call and the returned value.  When the close
order fills but `price_filled` is `None`, the source mutates
`is_active`, `exit_time`, `exit_price`, `exit_reason` and then raises
`TypeError` in the P&L arithmetic, which the surrounding `except`
converts into a `None` return — that partial-mutation path is modelled
by the inner `none` branch. -/
def close_position (position : Position) (close_result : OrderResult)
    (reason : String) : Position × Option OrderResult :=
  if position.is_active = false then (position, none)
  else if close_result.status = OrderStatus.filled then
    match close_result.price_filled with
    | some px =>
      let pnl := if position.side = OrderSide.buy
        then (px - position.entry_price) * position.quantity
        else (position.entry_price - px) * position.quantity
      ({ position with
          is_active := false
          exit_time := close_result.fill_time
          exit_price := some px
          exit_reason := some reason
          realized_pnl := pnl - close_result.commission }, some close_result)
    | none =>
      ({ position with
          is_active := false
          exit_time := close_result.fill_time
          exit_price := none
          exit_reason := some reason }, none)
  else (position, some close_result)

/-- C10: closing an inactive position returns `None` and changes nothing;
when the submitted close order's status is not "filled", the position is
returned entirely unchanged (still active, no exit fields); and when the
close order fills (with a fill price set, as every filled order has), the
position becomes inactive with `exit_time`, `exit_price` and `exit_reason`
set, and `realized_pnl` is the side-signed price difference times quantity
minus the close order's commission. -/
theorem close_position_spec (pos : Position) (r : OrderResult) (reason : String) :
    (pos.is_active = false → close_position pos r reason = (pos, none)) ∧
    (pos.is_active = true → r.status ≠ OrderStatus.filled →
      close_position pos r reason = (pos, some r)) ∧
    (∀ px : ℚ, pos.is_active = true → r.status = OrderStatus.filled →
      r.price_filled = some px →
      (close_position pos r reason).1.is_active = false ∧
      (close_position pos r reason).1.exit_time = r.fill_time ∧
      (close_position pos r reason).1.exit_price = some px ∧
      (close_position pos r reason).1.exit_reason = some reason ∧
      (close_position pos r reason).1.realized_pnl =
        (if pos.side = OrderSide.buy then (px - pos.entry_price) * pos.quantity
          else (pos.entry_price - px) * pos.quantity) - r.commission ∧
      (close_position pos r reason).2 = some r) := by
  refine ⟨fun h => ?_, fun h hs => ?_, fun px h hs hp => ?_⟩
  · simp [close_position, h]
  · simp [close_position, h, hs]
  · simp [close_position, h, hs, hp]

/-- Witness for `close_position_spec`: a filled close on an active long. -/
theorem close_position_spec_witness :
    (close_position
        ⟨"KRW-BTC", OrderSide.buy, 50000, 10, 0, "e1", none, none, 0, 0, true,
          none, none, none⟩
        ⟨"c1", OrderStatus.filled, "KRW-BTC", OrderSide.sell, 10, 10, some 51000,
          some 51000, some 7, 5, 255, 0⟩ "take_profit").1.realized_pnl
      = 9745 := by
  have h := (close_position_spec
    ⟨"KRW-BTC", OrderSide.buy, 50000, 10, 0, "e1", none, none, 0, 0, true,
      none, none, none⟩
    ⟨"c1", OrderStatus.filled, "KRW-BTC", OrderSide.sell, 10, 10, some 51000,
      some 51000, some 7, 5, 255, 0⟩ "take_profit").2.2 51000 rfl rfl rfl
  rw [h.2.2.2.2.1]
  norm_num

/-! ## Signal manager conflicts (src/signals/signal_manager.py) -/

/-- Priorities (src/signals/signal_manager.py:26-30); `value.` -/
inductive SignalPriority where
  | high
  | medium
  | low
  deriving DecidableEq, Repr

/-- The `.value` of the priority enum (HIGH=1, MEDIUM=2, LOW=3). -/
def SignalPriority.value : SignalPriority → ℕ
  | .high => 1
  | .medium => 2
  | .low => 3

/-- Direction of a signal as parsed by `_get_signal_direction`. -/
inductive SignalDirection where
  | long
  | short
  deriving DecidableEq, Repr

/-- The signal fields read by conflict detection and resolution:
`direction` models the `'long' in signal_type.lower()` /
`'short' in ...` test of `_get_signal_direction` (`none` when
neither substring occurs). -/
structure ConflictSignal where
  direction : Option SignalDirection
  entry_price : ℚ
  confidence_score : ℚ
  deriving DecidableEq, Repr

/-- `SignalContext` (src/signals/signal_manager.py:33-42); the unused
`conflict_score` default is dropped.  Timestamps are in seconds. -/
structure SignalContext where
  signal : ConflictSignal
  strategy_name : String
  priority : SignalPriority
  timestamp : ℚ
  is_valid : Bool
  deriving DecidableEq, Repr

/-- The ordered pairs `(signals[i], signals[j])`, `i < j`, of the
double loop in `detect_signal_conflicts`. -/
def allPairs : List SignalContext → List (SignalContext × SignalContext)
  | [] => []
  | x :: xs => xs.map (fun y => (x, y)) ++ allPairs xs

/-- Direction conflict test (src/signals/signal_manager.py:245-250):
both directions known and different. -/
def direction_conflict_pair (s1 s2 : SignalContext) : Bool :=
  match s1.signal.direction, s2.signal.direction with
  | some d1, some d2 => decide (d1 ≠ d2)
  | _, _ => false

/-- Timing conflict test (src/signals/signal_manager.py:252-255):
timestamps closer than 300 seconds. -/
def timing_conflict_pair (s1 s2 : SignalContext) : Bool :=
  decide (|s1.timestamp - s2.timestamp| < 300)

/-- `_signals_overlap` (src/signals/signal_manager.py:281-296): entry
prices within a 1% band of their average. -/
def signals_overlap (s1 s2 : SignalContext) : Bool :=
  decide (|s1.signal.entry_price - s2.signal.entry_price| /
    ((s1.signal.entry_price + s2.signal.entry_price) / 2) * 100 < 1)

/-- For each conflicting pair, in pair order, `extend([signal1, signal2])`. -/
def pairConcat (cond : SignalContext → SignalContext → Bool)
    (pairs : List (SignalContext × SignalContext)) : List SignalContext :=
  pairs.foldr (fun p acc => if cond p.1 p.2 then p.1 :: p.2 :: acc else acc) []

/-- The `conflicts` dict of `detect_signal_conflicts`. -/
structure Conflicts where
  direction_conflict : List SignalContext
  timing_conflict : List SignalContext
  strategy_overlap : List SignalContext
  deriving DecidableEq, Repr

/-- `SignalManager.detect_signal_conflicts`
(src/signals/signal_manager.py:224-261). -/
def detect_signal_conflicts (signals : List SignalContext) : Conflicts :=
  if signals.length < 2 then ⟨[], [], []⟩
  else
    ⟨pairConcat direction_conflict_pair (allPairs signals),
      pairConcat timing_conflict_pair (allPairs signals),
      pairConcat signals_overlap (allPairs signals)⟩

/-- The sort key of `_prioritize_signals`
(src/signals/signal_manager.py:360-376): ascending priority value, then
descending confidence, then ascending timestamp; used with a stable sort. -/
def signal_key_le (a b : SignalContext) : Bool :=
  decide (a.priority.value < b.priority.value ∨
    (a.priority.value = b.priority.value ∧
      (b.signal.confidence_score < a.signal.confidence_score ∨
        (a.signal.confidence_score = b.signal.confidence_score ∧
          a.timestamp ≤ b.timestamp))))

/-- `_prioritize_signals` (Python `sorted`, a stable sort). -/
def prioritize_signals (signals : List SignalContext) : List SignalContext :=
  signals.mergeSort signal_key_le

/-- The runtime error raised on the conflicted branch of
`resolve_conflicts`. -/
inductive PyError where
  | typeErrorUnhashable
  deriving DecidableEq, Repr

/-- `SignalManager.resolve_conflicts` (src/signals/signal_manager.py:298-358).
When neither a direction conflict nor a strategy overlap was detected the
signals are returned prioritized.  Otherwise the source executes
`conflicted_signals = set(); conflicted_signals.update(conflict_list)`
over the dict's lists: `SignalContext` is a plain mutable `@dataclass`,
whose `__hash__` is `None`, so adding the first element of the first
non-empty conflict list raises `TypeError: unhashable type` — and on this
branch a non-empty list is guaranteed.  The selection logic below that
line (highest priority, ties by confidence) is unreachable. -/
def resolve_conflicts (signals : List SignalContext) (conflicts : Conflicts) :
    Except PyError (List SignalContext) :=
  if conflicts.direction_conflict.isEmpty ∧ conflicts.strategy_overlap.isEmpty then
    .ok (prioritize_signals signals)
  else .error .typeErrorUnhashable

/-- C5, failing input: an ORB long (HIGH priority, confidence 0.8) and an
sVWAP short (MEDIUM, 0.7) for the same market in the same tick.  The
direction conflict is detected as the claim says, but `resolve_conflicts`
then raises `TypeError` instead of selecting the ORB signal: no signal is
returned at all. -/
theorem conflict_resolution_raises :
    (detect_signal_conflicts
        [⟨⟨some SignalDirection.long, 50000, 4/5⟩, "orb", SignalPriority.high, 0, true⟩,
         ⟨⟨some SignalDirection.short, 50200, 7/10⟩, "svwap", SignalPriority.medium, 0,
          true⟩]).direction_conflict
      = [⟨⟨some SignalDirection.long, 50000, 4/5⟩, "orb", SignalPriority.high, 0, true⟩,
         ⟨⟨some SignalDirection.short, 50200, 7/10⟩, "svwap", SignalPriority.medium, 0,
          true⟩] ∧
    resolve_conflicts
        [⟨⟨some SignalDirection.long, 50000, 4/5⟩, "orb", SignalPriority.high, 0, true⟩,
         ⟨⟨some SignalDirection.short, 50200, 7/10⟩, "svwap", SignalPriority.medium, 0,
          true⟩]
        (detect_signal_conflicts
          [⟨⟨some SignalDirection.long, 50000, 4/5⟩, "orb", SignalPriority.high, 0, true⟩,
           ⟨⟨some SignalDirection.short, 50200, 7/10⟩, "svwap", SignalPriority.medium, 0,
            true⟩])
      = Except.error PyError.typeErrorUnhashable := by
  constructor
  · norm_num [detect_signal_conflicts, allPairs, pairConcat, direction_conflict_pair]
    exact fun h => SignalDirection.noConfusion h
  · norm_num [detect_signal_conflicts, resolve_conflicts, allPairs, pairConcat,
      direction_conflict_pair]
    intro h1 _
    exact absurd (h1 fun hh => SignalDirection.noConfusion hh) (List.cons_ne_nil _ _)

theorem update_account_balance_daily_isSome (config : RiskConfig) (today : ℤ)
    (balance : ℚ) (st : RiskGuardState) :
    ((update_account_balance config today balance st).daily_risk).isSome = true := by
  rcases hd : st.daily_risk with _ | dr <;> simp only [update_account_balance, hd]
  · simp
  · split <;> simp

theorem record_trade_result_daily_isSome (config : RiskConfig) (today : ℤ)
    (M : String) (e x s : ℚ) (w : Bool) (pnl : ℚ) (st : RiskGuardState) :
    ((record_trade_result config today M e x s w pnl st).daily_risk).isSome = true := by
  unfold record_trade_result
  rcases hd : st.daily_risk with _ | dr <;> simp only [hd] <;>
    exact update_account_balance_daily_isSome ..

theorem record_trade_result_lookup (config : RiskConfig) (today : ℤ) (M : String)
    (e x s : ℚ) (w : Bool) (pnl : ℚ) (st : RiskGuardState) :
    (record_trade_result config today M e x s w pnl st).market_risks.lookup M
      = some (record_market_update config today w
          ((st.market_risks.lookup M).getD (freshMarketRisk M))) := by
  unfold record_trade_result
  rcases hd : st.daily_risk with _ | dr <;> simp only [hd] <;>
    rw [update_account_balance_markets] <;> exact lookup_setMarketRisk _ _ _

theorem assess_banned (config : RiskConfig) (today : ℤ) (M : String)
    (sig : TradingSignal) (custom : Option ℚ) (st : RiskGuardState)
    (dr : DailyRisk) (mr : MarketRisk) (e : ℤ)
    (hdr : st.daily_risk = some dr)
    (hmr : st.market_risks.lookup M = some mr)
    (hban : mr.is_banned = true)
    (hexp : mr.ban_expiry_date = some e) (hne : ¬ e ≤ today) :
    (assess_trade_risk config today M sig custom st).2.is_allowed = false ∧
    RejectionReason.marketBanned ∈
      (assess_trade_risk config today M sig custom st).2.rejection_reasons := by
  simp only [assess_trade_risk, hdr, Option.isNone_some, Bool.false_eq_true, if_false,
    Option.getD_some, hmr, hban, hexp, if_true, hne, ite_true, ite_false]
  by_cases h1 : dr.is_ddl_hit <;> by_cases h3 : st.current_balance ≤ 0 <;>
    simp [h1, h3]

theorem assess_ban_expired (config : RiskConfig) (today : ℤ) (M : String)
    (sig : TradingSignal) (custom : Option ℚ) (st : RiskGuardState)
    (dr : DailyRisk) (mr : MarketRisk) (e : ℤ)
    (hdr : st.daily_risk = some dr)
    (hmr : st.market_risks.lookup M = some mr)
    (hban : mr.is_banned = true)
    (hexp : mr.ban_expiry_date = some e) (hle : e ≤ today) :
    (assess_trade_risk config today M sig custom st).1.market_risks.lookup M
      = some { mr with
          is_banned := false
          ban_expiry_date := none
          consecutive_losses := 0 } ∧
    RejectionReason.marketBanned ∉
      (assess_trade_risk config today M sig custom st).2.rejection_reasons := by
  constructor
  · by_cases h1 : dr.is_ddl_hit <;> by_cases h3 : st.current_balance ≤ 0 <;>
      simp only [assess_trade_risk, hdr, Option.isNone_some, Bool.false_eq_true,
        if_false, Option.getD_some, hmr, hban, hexp, hle, ite_true, if_true, h1, h3,
        ite_false, List.append_nil, List.nil_append, List.isEmpty_cons,
        List.isEmpty_nil] <;>
      first
      | exact lookup_setMarketRisk _ _ _
      | (split <;> exact lookup_setMarketRisk _ _ _)
  · by_cases h1 : dr.is_ddl_hit <;> by_cases h3 : st.current_balance ≤ 0 <;>
      simp [assess_trade_risk, hdr, hmr, hban, hexp, hle, h1, h3] <;>
      split <;> simp

/-- C2: starting from a market with no consecutive losses recorded (or not
yet tracked), two losing `record_trade_result` calls for market `M` on day
`d` (threshold at its default 2) leave `market_risks[M]` banned with
`ban_expiry_date = d + 1` and `consecutive_losses = 2`; the next
`assess_trade_risk` for `M` on day `d` is rejected with the ban reason; an
assessment on any day `d' ≥ d + 1` clears the ban, resets
`consecutive_losses` to 0 and no longer carries the ban reason (so the
trade is allowed absent other rejection reasons); and a winning trade
always resets `consecutive_losses` to 0. -/
theorem consecutive_loss_ban (config : RiskConfig) (d d' : ℤ) (M : String)
    (e1 x1 s1 pnl1 e2 x2 s2 pnl2 : ℚ) (sig : TradingSignal) (custom : Option ℚ)
    (st : RiskGuardState)
    (hstop : config.same_symbol_consecutive_losses_stop = 2)
    (hzero : ((st.market_risks.lookup M).getD (freshMarketRisk M)).consecutive_losses
      = 0) :
    ((((record_trade_result config d M e2 x2 s2 false pnl2
          (record_trade_result config d M e1 x1 s1 false pnl1 st)).market_risks.lookup
          M).getD (freshMarketRisk M)).is_banned = true ∧
      (((record_trade_result config d M e2 x2 s2 false pnl2
          (record_trade_result config d M e1 x1 s1 false pnl1 st)).market_risks.lookup
          M).getD (freshMarketRisk M)).ban_expiry_date = some (d + 1) ∧
      (((record_trade_result config d M e2 x2 s2 false pnl2
          (record_trade_result config d M e1 x1 s1 false pnl1 st)).market_risks.lookup
          M).getD (freshMarketRisk M)).consecutive_losses = 2) ∧
    ((assess_trade_risk config d M sig custom
        (record_trade_result config d M e2 x2 s2 false pnl2
          (record_trade_result config d M e1 x1 s1 false pnl1 st))).2.is_allowed
        = false ∧
      RejectionReason.marketBanned ∈
        (assess_trade_risk config d M sig custom
          (record_trade_result config d M e2 x2 s2 false pnl2
            (record_trade_result config d M e1 x1 s1 false pnl1 st))).2.rejection_reasons) ∧
    (d + 1 ≤ d' →
      (((assess_trade_risk config d' M sig custom
          (record_trade_result config d M e2 x2 s2 false pnl2
            (record_trade_result config d M e1 x1 s1 false pnl1
              st))).1.market_risks.lookup M).getD (freshMarketRisk M)).is_banned
          = false ∧
      (((assess_trade_risk config d' M sig custom
          (record_trade_result config d M e2 x2 s2 false pnl2
            (record_trade_result config d M e1 x1 s1 false pnl1
              st))).1.market_risks.lookup M).getD
          (freshMarketRisk M)).consecutive_losses = 0 ∧
      RejectionReason.marketBanned ∉
        (assess_trade_risk config d' M sig custom
          (record_trade_result config d M e2 x2 s2 false pnl2
            (record_trade_result config d M e1 x1 s1 false pnl1
              st))).2.rejection_reasons) ∧
    (∀ (stw : RiskGuardState) (e x s pnl : ℚ),
      (((record_trade_result config d M e x s true pnl stw).market_risks.lookup
          M).getD (freshMarketRisk M)).consecutive_losses = 0) := by
  have h1 : (record_trade_result config d M e1 x1 s1 false pnl1 st).market_risks.lookup M
      = some (record_market_update config d false
          ((st.market_risks.lookup M).getD (freshMarketRisk M))) :=
    record_trade_result_lookup ..
  have h2 : (record_trade_result config d M e2 x2 s2 false pnl2
        (record_trade_result config d M e1 x1 s1 false pnl1 st)).market_risks.lookup M
      = some (record_market_update config d false (record_market_update config d false
          ((st.market_risks.lookup M).getD (freshMarketRisk M)))) := by
    have := record_trade_result_lookup config d M e2 x2 s2 false pnl2
      (record_trade_result config d M e1 x1 s1 false pnl1 st)
    rw [h1] at this
    simpa using this
  have hban : (record_market_update config d false (record_market_update config d false
      ((st.market_risks.lookup M).getD (freshMarketRisk M)))).is_banned = true := by
    norm_num [record_market_update, hzero, hstop]
  have hexp : (record_market_update config d false (record_market_update config d false
      ((st.market_risks.lookup M).getD (freshMarketRisk M)))).ban_expiry_date
      = some (d + 1) := by
    norm_num [record_market_update, hzero, hstop]
  have hcons : (record_market_update config d false (record_market_update config d false
      ((st.market_risks.lookup M).getD (freshMarketRisk M)))).consecutive_losses = 2 := by
    norm_num [record_market_update, hzero, hstop]
  obtain ⟨dr2, hdr2⟩ := Option.isSome_iff_exists.mp
    (record_trade_result_daily_isSome config d M e2 x2 s2 false pnl2
      (record_trade_result config d M e1 x1 s1 false pnl1 st))
  refine ⟨⟨by rw [h2]; exact hban, by rw [h2]; exact hexp, by rw [h2]; exact hcons⟩,
    ?_, fun hd' => ?_, fun stw e x s pnl => ?_⟩
  · exact assess_banned config d M sig custom _ dr2 _ (d + 1) hdr2 h2 hban hexp
      (by omega)
  · have hclear := assess_ban_expired config d' M sig custom _ dr2 _ (d + 1) hdr2 h2
      hban hexp hd'
    exact ⟨by rw [hclear.1]; rfl, by rw [hclear.1]; rfl, hclear.2⟩
  · rw [record_trade_result_lookup]
    norm_num [record_market_update]

/-- Witness for `consecutive_loss_ban` at a concrete fresh state: two
300-KRW losses on "KRW-SOL" on day 10 ban it until day 11. -/
theorem consecutive_loss_ban_witness :
    (((record_trade_result ⟨1/250, 10000, 500000, 1/100, 2, 1⟩ 10 "KRW-SOL"
          100 99 3 false (-300)
          (record_trade_result ⟨1/250, 10000, 500000, 1/100, 2, 1⟩ 10 "KRW-SOL"
            100 99 3 false (-300)
            ⟨1000000, some ⟨10, 1000000, 1000000, 0, 0, 10000, 0, 0, false⟩,
              []⟩)).market_risks.lookup "KRW-SOL").getD
        (freshMarketRisk "KRW-SOL")).is_banned = true ∧
    (((record_trade_result ⟨1/250, 10000, 500000, 1/100, 2, 1⟩ 10 "KRW-SOL"
          100 99 3 false (-300)
          (record_trade_result ⟨1/250, 10000, 500000, 1/100, 2, 1⟩ 10 "KRW-SOL"
            100 99 3 false (-300)
            ⟨1000000, some ⟨10, 1000000, 1000000, 0, 0, 10000, 0, 0, false⟩,
              []⟩)).market_risks.lookup "KRW-SOL").getD
        (freshMarketRisk "KRW-SOL")).ban_expiry_date = some 11 := by
  have h := consecutive_loss_ban ⟨1/250, 10000, 500000, 1/100, 2, 1⟩ 10 11 "KRW-SOL"
    100 99 3 (-300) 100 99 3 (-300) ⟨100, 99, 103⟩ none
    ⟨1000000, some ⟨10, 1000000, 1000000, 0, 0, 10000, 0, 0, false⟩, []⟩
    rfl (by simp [freshMarketRisk])
  exact ⟨h.1.1, h.1.2.1⟩

end CoinManager
